import Mathlib

/-!
Verification of the mp3-compressor compression pipeline (src/unnamed/part_000).

The development shallowly embeds the pure logic of the React application:
the preset catalog, the custom-parameter selects, the parameter resolution
and engine argument list built in handleCompress, the metadata extraction
of parseAudioInfo (with the browser decode outcomes abstracted as an
environment value), the workspace lifecycle of a transcode run, and the
size/ratio arithmetic of the estimate and result blocks.

JavaScript numbers are modelled as Nat/Int/Rat; Math.round(x) is
jsRound x = floor (x + 1/2), which agrees with JavaScript's
round-half-toward-positive-infinity on rationals.
-/

/-- JavaScript Math.round on rationals: round half toward positive infinity. -/
def jsRound (x : ℚ) : ℤ := ⌊x + 1/2⌋

/-- Preset record (part_000 lines 16-23). -/
structure Preset where
  id : String
  nameKey : String
  descKey : String
  bitrate : ℕ
  sampleRate : Option ℕ
  channels : Option ℕ
deriving DecidableEq, Repr

/-- The preset catalog (part_000 lines 25-34). -/
def presets : List Preset := [
  ⟨"lossless", "presetLossless", "presetLosslessDesc", 320, none, some 2⟩,
  ⟨"high", "presetHigh", "presetHighDesc", 256, some 44100, some 2⟩,
  ⟨"standard", "presetStandard", "presetStandardDesc", 192, some 44100, some 2⟩,
  ⟨"medium", "presetMedium", "presetMediumDesc", 128, some 44100, some 2⟩,
  ⟨"compact", "presetCompact", "presetCompactDesc", 96, some 32000, some 2⟩,
  ⟨"voice", "presetVoice", "presetVoiceDesc", 64, some 22050, some 1⟩,
  ⟨"minimal", "presetMinimal", "presetMinimalDesc", 32, some 16000, some 1⟩,
  ⟨"custom", "presetCustom", "presetCustomDesc", 128, some 44100, some 2⟩]

/-- Bitrate choices offered by the custom bitrate select (part_000 line 36). -/
def bitrateOptions : List ℕ := [320, 256, 192, 160, 128, 112, 96, 80, 64, 48, 32]

/-- An entry of a value select (value plus its label key). -/
structure SelectOption where
  value : ℕ
  labelKey : String
deriving DecidableEq, Repr

/-- Sample-rate choices offered by the custom sample-rate select (lines 118-125). -/
def sampleRateOptions : List SelectOption := [
  ⟨48000, "sr48000"⟩, ⟨44100, "sr44100"⟩, ⟨32000, "sr32000"⟩,
  ⟨22050, "sr22050"⟩, ⟨16000, "sr16000"⟩, ⟨11025, "sr11025"⟩]

/-- Channel choices offered by the custom channels select (lines 127-130). -/
def channelOptions : List SelectOption := [⟨2, "stereo"⟩, ⟨1, "mono"⟩]

/-- The three independently stored custom values (React state, lines 105-107). -/
structure CustomValues where
  bitrate : ℕ
  sampleRate : ℕ
  channels : ℕ
deriving DecidableEq, Repr

/-- Parameter resolution of handleCompress (lines 256-261): look the selected
preset up in the catalog (the source uses a non-null assertion, modelled as
`none` when the lookup fails) and take each field from the custom state when
the custom preset is selected, from the preset record otherwise. -/
def resolveParams (selectedPreset : String) (c : CustomValues) :
    Option (ℕ × Option ℕ × Option ℕ) :=
  match presets.find? (fun p => p.id == selectedPreset) with
  | none => none
  | some preset =>
      some (if selectedPreset = "custom" then c.bitrate else preset.bitrate,
            if selectedPreset = "custom" then some c.sampleRate else preset.sampleRate,
            if selectedPreset = "custom" then some c.channels else preset.channels)

/-- The engine argument list built in handleCompress (lines 267-277).
`if (sampleRate)` and `if (channels)` are JavaScript truthiness tests on a
number-or-null value, so a directive is pushed exactly for a non-null,
non-zero value. -/
def buildArgs (bitrate : ℕ) (sampleRate channels : Option ℕ) : List String :=
  (["-i", "input.mp3", "-b:a", toString bitrate ++ "k"]
    ++ (match sampleRate with
        | some sr => if sr ≠ 0 then ["-ar", toString sr] else []
        | none => [])
    ++ (match channels with
        | some ch => if ch ≠ 0 then ["-ac", toString ch] else []
        | none => []))
    ++ ["-map", "0:a", "-y", "output.mp3"]

/-- Custom bitrate select change (lines 442-450): the select renders exactly
the entries of bitrateOptions, so only one of those values can be delivered by
a change event; anything else leaves the stored value unchanged. -/
def setCustomBitrate (v cur : ℕ) : ℕ :=
  if v ∈ bitrateOptions then v else cur

/-- Custom sample-rate select change (lines 454-462): only values of
sampleRateOptions can be delivered. -/
def setCustomSampleRate (v cur : ℕ) : ℕ :=
  if v ∈ sampleRateOptions.map SelectOption.value then v else cur

/-- Custom channels select change (lines 466-474): only values of
channelOptions can be delivered. -/
def setCustomChannels (v cur : ℕ) : ℕ :=
  if v ∈ channelOptions.map SelectOption.value then v else cur

/-- Metadata record produced by parseAudioInfo (lines 7-14); the JavaScript
float duration is a rational, the rounded bitrate an integer. -/
structure FileInfo where
  name : String
  size : ℕ
  duration : ℚ
  bitrate : ℤ
  sampleRate : ℕ
  channels : ℕ
deriving DecidableEq, Repr

/-- Outcome of the coarse load (the Audio element): either onloadedmetadata
fires with a duration, or onerror fires. -/
inductive CoarseOutcome where
  | metaLoaded (duration : ℚ)
  | loadError
deriving DecidableEq, Repr

/-- Outcome of the FileReader read of the bytes. -/
inductive ReadOutcome where
  | readOk
  | readError
deriving DecidableEq, Repr

/-- Outcome of audioContext.decodeAudioData on the bytes. -/
inductive DecodeOutcome where
  | decoded (sampleRate channels : ℕ)
  | decodeError
deriving DecidableEq, Repr

/-- The browser-side outcomes that drive one parseAudioInfo call. -/
structure MediaEnv where
  coarse : CoarseOutcome
  read : ReadOutcome
  decode : DecodeOutcome
deriving DecidableEq, Repr

/-- parseAudioInfo (lines 165-217) as a function of the file and the browser
outcomes: a coarse-load error rejects; otherwise duration and the rounded
bitrate come from the coarse phase, a reader error rejects, a successful fine
decode supplies the exact sample rate and channel count, and a fine-decode
failure resolves with the 44100/2 defaults. -/
def parseAudioInfo (name : String) (size : ℕ) (env : MediaEnv) :
    Except String FileInfo :=
  match env.coarse with
  | .loadError => .error "cannotParseAudio"
  | .metaLoaded duration =>
      let bitrate := jsRound ((size : ℚ) * 8 / duration / 1000)
      match env.read with
      | .readError => .error "cannotReadFile"
      | .readOk =>
          match env.decode with
          | .decoded sr ch => .ok ⟨name, size, duration, bitrate, sr, ch⟩
          | .decodeError => .ok ⟨name, size, duration, bitrate, 44100, 2⟩

/-- Temporary resources of one parseAudioInfo call: whether the object URL was
revoked, whether an AudioContext was created, whether it was closed. -/
structure Resources where
  urlRevoked : Bool
  contextCreated : Bool
  contextClosed : Bool
deriving DecidableEq, Repr

/-- Resource bookkeeping of parseAudioInfo along each exit path. On a
coarse-load error, onerror revokes the URL and no AudioContext exists (lines
212-215). After onloadedmetadata, the AudioContext is created (line 175) and
the URL is revoked unconditionally (line 209); audioContext.close() is reached
only after a successful decodeAudioData (line 192) — the decodeError catch
(lines 193-203) and the reader error handler (line 206) never close it. -/
def parseAudioResources (env : MediaEnv) : Resources :=
  match env.coarse with
  | .loadError => ⟨true, false, false⟩
  | .metaLoaded _ =>
      match env.read with
      | .readError => ⟨true, true, false⟩
      | .readOk =>
          match env.decode with
          | .decoded _ _ => ⟨true, true, true⟩
          | .decodeError => ⟨true, true, false⟩

/-- Which of the five awaited engine calls of a run succeed. -/
structure EngineRun where
  writeOk : Bool
  execOk : Bool
  readOk : Bool
  deleteInputOk : Bool
  deleteOutputOk : Bool
deriving DecidableEq, Repr

/-- Presence of the two fixed-name artifacts in the engine workspace. -/
structure Workspace where
  inputExists : Bool
  outputExists : Bool
deriving DecidableEq, Repr

/-- Observable outcome of one handleCompress run: the final workspace, whether
a result was stored, and whether the error state was set. -/
structure RunOutcome where
  ws : Workspace
  resultSet : Bool
  errorSet : Bool
deriving DecidableEq, Repr

/-- The try/catch body of handleCompress (lines 255-301) over the engine
workspace. writeFile stages input.mp3; exec produces output.mp3; readFile
yields the result; then — still inside the try — input.mp3 and output.mp3 are
deleted (lines 292-293). Any rejection jumps to the catch, which only sets the
error message: no deleteFile runs on a failure path, and a failed first delete
skips the second. -/
def handleCompressRun (beh : EngineRun) (ws : Workspace) : RunOutcome :=
  if !beh.writeOk then ⟨ws, false, true⟩
  else
    let ws1 : Workspace := ⟨true, ws.outputExists⟩
    if !beh.execOk then ⟨ws1, false, true⟩
    else
      let ws2 : Workspace := ⟨true, true⟩
      if !beh.readOk then ⟨ws2, false, true⟩
      else
        if !beh.deleteInputOk then ⟨ws2, true, true⟩
        else
          let ws3 : Workspace := ⟨false, true⟩
          if !beh.deleteOutputOk then ⟨ws3, true, true⟩
          else ⟨⟨false, false⟩, true, false⟩

/-- The pieces of application state that gate the launch of a run. -/
structure AppState where
  ffmpegSet : Bool
  loaded : Bool
  fileSelected : Bool
  resultPresent : Bool
  processing : Bool
deriving DecidableEq, Repr

/-- The compress button is rendered only while a file is selected and no
result is present (line 506). -/
def compressBtnRendered (s : AppState) : Bool :=
  s.fileSelected && !s.resultPresent

/-- The compress button is disabled while processing or before the engine is
loaded (line 510). -/
def compressBtnDisabled (s : AppState) : Bool :=
  s.processing || !s.loaded

/-- The early-return guard at the top of handleCompress (line 248). -/
def handleCompressGuard (s : AppState) : Bool :=
  s.ffmpegSet && s.fileSelected && s.loaded

/-- Whether a click on the compress button actually enters the
staging/executing/retrieving sequence: the button must be rendered and
enabled, and the handleCompress guard must pass. -/
def compressBtnStartsRun (s : AppState) : Bool :=
  compressBtnRendered s && !compressBtnDisabled s && handleCompressGuard s

/-- Estimated output size (line 495): Math.round(bitrate * 125 * duration). -/
def estimatedSize (bitrate : ℕ) (duration : ℚ) : ℤ :=
  jsRound ((bitrate : ℚ) * 125 * duration)

/-- Pre-flight compression ratio percentage (line 496). -/
def compressionRatioPercent (estSize : ℤ) (size : ℕ) : ℤ :=
  jsRound ((1 - (estSize : ℚ) / (size : ℚ)) * 100)

/-- Post-run saved percentage (line 538). -/
def savedPercent (resultSize size : ℕ) : ℤ :=
  jsRound ((1 - (resultSize : ℚ) / (size : ℚ)) * 100)

/-- A rendered ratio: either the saved label with a percentage, or the
increase label with a (displayed-absolute) percentage. -/
inductive RatioDisplay where
  | savedLabel (n : ℤ)
  | increasedLabel (n : ℤ)
deriving DecidableEq, Repr

/-- The estimate block's rendering of the ratio (line 500): strictly positive
shows the saved form, zero or negative shows the increase form with the
absolute value. -/
def estimateRatioDisplay (r : ℤ) : RatioDisplay :=
  if 0 < r then .savedLabel r else .increasedLabel |r|

/-- The result block's rendering of the saved percentage (lines 538-549):
non-negative shows the saved label, negative shows the increased label with
the absolute value. -/
def resultSavedDisplay (s : ℤ) : RatioDisplay :=
  if 0 ≤ s then .savedLabel s else .increasedLabel |s|

/-! ## Helper lemmas -/

lemma presets_fields_ne_zero :
    ∀ p ∈ presets, p.sampleRate ≠ some 0 ∧ p.channels ≠ some 0 := by decide

lemma resolveParams_ne_zero (sel : String) (c : CustomValues) (b : ℕ)
    (sr ch : Option ℕ) (h : resolveParams sel c = some (b, sr, ch))
    (hcs : c.sampleRate ≠ 0) (hcc : c.channels ≠ 0) :
    sr ≠ some 0 ∧ ch ≠ some 0 := by
  unfold resolveParams at h
  cases hfind : presets.find? (fun p => p.id == sel) with
  | none => rw [hfind] at h; exact absurd h (by simp)
  | some p =>
      rw [hfind] at h
      have hp : p ∈ presets := List.mem_of_find?_eq_some hfind
      have hz := presets_fields_ne_zero p hp
      simp only [Option.some.injEq, Prod.mk.injEq] at h
      obtain ⟨-, hsr, hch⟩ := h
      by_cases hsel : sel = "custom"
      · simp only [hsel, if_pos rfl] at hsr hch
        exact ⟨hsr ▸ by simpa using hcs, hch ▸ by simpa using hcc⟩
      · simp only [if_neg hsel] at hsr hch
        exact ⟨hsr ▸ hz.1, hch ▸ hz.2⟩

/-! ## Claim theorems -/

/-- C1 (counterexample): the claim that both staged artifacts are removed on
every failure path is false — when staging succeeds but ffmpeg.exec rejects,
control jumps to the catch block before either deleteFile call, and the run
returns with input.mp3 still present in the engine workspace. -/
theorem c1_cleanup_counterexample :
    (handleCompressRun ⟨true, false, true, true, true⟩ ⟨false, false⟩).ws.inputExists
      = true := rfl

/-- C1 (amended): starting from an empty workspace, a handleCompress run
returns with both staged artifacts removed exactly when either staging itself
failed (so nothing was ever written) or every step — staging, execution,
retrieval and both deletions — succeeded; on a failure during execution or
retrieval the artifacts staged so far are left behind, because the deleteFile
calls live on the success path only (lines 292-293), not in the catch. -/
theorem c1_cleanup_amended (beh : EngineRun) :
    (handleCompressRun beh ⟨false, false⟩).ws = ⟨false, false⟩ ↔
      (beh.writeOk = false ∨
        (beh.writeOk && beh.execOk && beh.readOk
          && beh.deleteInputOk && beh.deleteOutputOk) = true) := by
  rcases beh with ⟨w, e, r, d1, d2⟩
  cases w <;> cases e <;> cases r <;> cases d1 <;> cases d2 <;> decide

/-- C1 (amended, witness): the fully successful run leaves an empty
workspace. -/
theorem c1_cleanup_amended_witness :
    (handleCompressRun ⟨true, true, true, true, true⟩ ⟨false, false⟩).ws
      = ⟨false, false⟩ :=
  (c1_cleanup_amended ⟨true, true, true, true, true⟩).mpr (Or.inr rfl)

/-- C2: at most one transcode run is in flight. handleCompress is invoked
only from the compress button, and while a run has not settled
(processing = true, set on entry and cleared in the finally block) that
button is disabled (line 510), so a second invocation never reaches the
staging/executing/retrieving sequence. -/
theorem c2_single_run (s : AppState) (h : s.processing = true) :
    compressBtnStartsRun s = false := by
  simp [compressBtnStartsRun, compressBtnDisabled, h]

/-- C2 (witness): with a file selected, the engine loaded and a run in
flight, a click starts no second run. -/
theorem c2_single_run_witness :
    compressBtnStartsRun ⟨true, true, true, false, true⟩ = false :=
  c2_single_run ⟨true, true, true, false, true⟩ rfl

/-- C3: when the coarse load succeeds and decodeAudioData fails, extraction
still resolves successfully with sampleRate 44100 and channels 2, keeping the
coarse-phase duration and rounded bitrate. -/
theorem c3_fine_decode_fallback (name : String) (size : ℕ) (d : ℚ)
    (env : MediaEnv) (hc : env.coarse = .metaLoaded d)
    (hr : env.read = .readOk) (hd : env.decode = .decodeError) :
    parseAudioInfo name size env =
      .ok ⟨name, size, d, jsRound ((size : ℚ) * 8 / d / 1000), 44100, 2⟩ := by
  rcases env with ⟨c, r, dec⟩
  cases hc
  cases hr
  cases hd
  rfl

/-- C3 (witness): a 10 MB, 240-second file whose fine decode fails. -/
theorem c3_fine_decode_fallback_witness :
    parseAudioInfo "a.mp3" 10485760 ⟨.metaLoaded 240, .readOk, .decodeError⟩ =
      .ok ⟨"a.mp3", 10485760, 240,
            jsRound ((10485760 : ℚ) * 8 / 240 / 1000), 44100, 2⟩ :=
  c3_fine_decode_fallback "a.mp3" 10485760 240 _ rfl rfl rfl

/-- C4: for every resolved parameter set the engine argument list is the
input reference, the bitrate directive, the sample-rate directive exactly when
the resolved sample rate is non-null, the channel directive exactly when the
resolved channel count is non-null, then the map directive, force-overwrite
and output reference. The resolved values are never the number 0 (presets
contain no 0 and the hypotheses record that the custom selects never deliver
0), so the JavaScript truthiness tests coincide with non-null tests. -/
theorem c4_arg_list (sel : String) (c : CustomValues) (b : ℕ)
    (sr ch : Option ℕ) (h : resolveParams sel c = some (b, sr, ch))
    (hcs : c.sampleRate ≠ 0) (hcc : c.channels ≠ 0) :
    buildArgs b sr ch =
      ["-i", "input.mp3", "-b:a", toString b ++ "k"]
        ++ (match sr with | some s => ["-ar", toString s] | none => [])
        ++ (match ch with | some n => ["-ac", toString n] | none => [])
        ++ ["-map", "0:a", "-y", "output.mp3"] := by
  obtain ⟨hsr, hch⟩ := resolveParams_ne_zero sel c b sr ch h hcs hcc
  rcases sr with _ | s <;> rcases ch with _ | n <;>
    simp_all [buildArgs]

/-- C4 (witness): custom bitrate 320, sample rate 16000, channels 1 yield the
directives 320k, 16000 and 1 in the stated order. -/
theorem c4_arg_list_witness :
    buildArgs 320 (some 16000) (some 1) =
      ["-i", "input.mp3", "-b:a", "320k", "-ar", "16000", "-ac", "1",
        "-map", "0:a", "-y", "output.mp3"] :=
  (c4_arg_list "custom" ⟨320, 16000, 1⟩ 320 (some 16000) (some 1)
    (by decide) (by decide) (by decide)).trans (by rfl)

/-- C5: with the custom preset the resolved parameters are exactly the three
independently stored custom values; each select delivers only values from its
enumerated option list (a change event carrying any other value is rejected,
leaving the stored value unchanged), so the stored values always stay inside
the legal sets. -/
theorem c5_custom_resolution (c : CustomValues)
    (hb : c.bitrate ∈ bitrateOptions)
    (hs : c.sampleRate ∈ sampleRateOptions.map SelectOption.value)
    (hch : c.channels ∈ channelOptions.map SelectOption.value) :
    resolveParams "custom" c = some (c.bitrate, some c.sampleRate, some c.channels)
      ∧ (∀ v, v ∉ bitrateOptions → setCustomBitrate v c.bitrate = c.bitrate)
      ∧ (∀ v, v ∉ sampleRateOptions.map SelectOption.value →
          setCustomSampleRate v c.sampleRate = c.sampleRate)
      ∧ (∀ v, v ∉ channelOptions.map SelectOption.value →
          setCustomChannels v c.channels = c.channels)
      ∧ (∀ v, setCustomBitrate v c.bitrate ∈ bitrateOptions)
      ∧ (∀ v, setCustomSampleRate v c.sampleRate ∈
          sampleRateOptions.map SelectOption.value)
      ∧ (∀ v, setCustomChannels v c.channels ∈
          channelOptions.map SelectOption.value) := by
  refine ⟨rfl, ?_, ?_, ?_, ?_, ?_, ?_⟩
  · intro v hv; simp [setCustomBitrate, hv]
  · intro v hv; simp [setCustomSampleRate, hv]
  · intro v hv; simp [setCustomChannels, hv]
  · intro v
    by_cases hv : v ∈ bitrateOptions <;> simp [setCustomBitrate, hv, hb]
  · intro v
    by_cases hv : v ∈ sampleRateOptions.map SelectOption.value <;>
      simp [setCustomSampleRate, hv, hs]
  · intro v
    by_cases hv : v ∈ channelOptions.map SelectOption.value <;>
      simp [setCustomChannels, hv, hch]

/-- C5 (witness): the default custom state resolves to itself and a bitrate
of 999 is rejected by the bitrate select. -/
theorem c5_custom_resolution_witness :
    resolveParams "custom" ⟨128, 44100, 2⟩ = some (128, some 44100, some 2)
      ∧ setCustomBitrate 999 128 = 128 := by
  have h := c5_custom_resolution ⟨128, 44100, 2⟩ (by decide) (by decide) (by decide)
  exact ⟨h.1, h.2.1 999 (by decide)⟩

/-- C6 (counterexample): the claimed unrounded formula
estimatedBytes = bitrateKbps * 125 * durationSeconds is false: the code
applies Math.round (line 495), so for bitrate 32 and duration 1/256 s the
code yields 16 bytes while the claimed formula yields 15.625. -/
theorem c6_estimate_counterexample :
    ((estimatedSize 32 (1/256) : ℤ) : ℚ) ≠ (32 : ℚ) * 125 * (1/256) := by
  have h : estimatedSize 32 (1/256) = 16 := by
    norm_num [estimatedSize, jsRound]
  rw [h]
  norm_num

/-- C6 (amended): estimatedBytes = round(bitrateKbps * 125 * durationSeconds)
and the ratio/saved percentages are round((1 - bytes/originalBytes) * 100),
signed and never clamped — the saved percentage of a grown output (12,000,000
bytes from 10,485,760) is the negative value -14; the 10 MB, 240-second file
at 128 kbps gives estimatedBytes = 3,840,000 and ratio 63. -/
theorem c6_estimate_amended :
    estimatedSize 128 240 = 3840000
      ∧ compressionRatioPercent 3840000 10485760 = 63
      ∧ savedPercent 12000000 10485760 = -14
      ∧ estimatedSize 32 (1/256) = 16
      ∧ (∀ (b : ℕ) (d : ℚ),
          estimatedSize b d = jsRound ((b : ℚ) * 125 * d))
      ∧ (∀ (bytes orig : ℕ),
          savedPercent bytes orig = jsRound ((1 - (bytes : ℚ) / (orig : ℚ)) * 100)) := by
  refine ⟨?_, ?_, ?_, ?_, fun b d => rfl, fun bytes orig => rfl⟩ <;>
    norm_num [estimatedSize, compressionRatioPercent, savedPercent, jsRound]

/-- C7: the bitrate reported by parseAudioInfo for a file of byte size size
and coarse duration d is round(size * 8 / d / 1000) exactly, on both
successful-extraction paths. -/
theorem c7_bitrate_formula (name : String) (size : ℕ) (d : ℚ)
    (env : MediaEnv) (info : FileInfo) (_hd : 0 < d)
    (hc : env.coarse = .metaLoaded d)
    (h : parseAudioInfo name size env = .ok info) :
    info.bitrate = jsRound ((size : ℚ) * 8 / d / 1000) := by
  rcases env with ⟨c, r, dec⟩
  cases hc
  cases r with
  | readError => simp [parseAudioInfo] at h
  | readOk =>
      cases dec with
      | decoded sr ch =>
          rw [show parseAudioInfo name size ⟨.metaLoaded d, .readOk, .decoded sr ch⟩
                = .ok ⟨name, size, d, jsRound ((size : ℚ) * 8 / d / 1000), sr, ch⟩
              from rfl] at h
          cases h
          rfl
      | decodeError =>
          rw [show parseAudioInfo name size ⟨.metaLoaded d, .readOk, .decodeError⟩
                = .ok ⟨name, size, d, jsRound ((size : ℚ) * 8 / d / 1000), 44100, 2⟩
              from rfl] at h
          cases h
          rfl

/-- C7 (witness): the 10 MB, 240-second file reports
round(10485760 * 8 / 240 / 1000) kbps. -/
theorem c7_bitrate_formula_witness :
    (⟨"a.mp3", 10485760, 240, jsRound ((10485760 : ℚ) * 8 / 240 / 1000),
        44100, 2⟩ : FileInfo).bitrate
      = jsRound ((10485760 : ℚ) * 8 / 240 / 1000) :=
  c7_bitrate_formula "a.mp3" 10485760 240
    ⟨.metaLoaded 240, .readOk, .decoded 44100 2⟩ _ (by norm_num) rfl rfl

/-- C8: any catalog preset other than custom resolves to its own field
values verbatim, whatever the stored custom values are and with no reference
to the file metadata. -/
theorem c8_preset_resolution (p : Preset) (hp : p ∈ presets)
    (hne : p.id ≠ "custom") (c : CustomValues) :
    resolveParams p.id c = some (p.bitrate, p.sampleRate, p.channels) := by
  fin_cases hp <;> first | rfl | exact absurd rfl hne

/-- C8 (witness): the medium preset resolves to 128/44100/2 even with custom
state 320/48000/1. -/
theorem c8_preset_resolution_witness :
    resolveParams "medium" ⟨320, 48000, 1⟩ = some (128, some 44100, some 2) :=
  c8_preset_resolution
    ⟨"medium", "presetMedium", "presetMediumDesc", 128, some 44100, some 2⟩
    (by decide) (by decide) ⟨320, 48000, 1⟩

/-- C9 (counterexample): the claim that the audio decode context is released
on every exit path is false — on the fine-decode-failure exit the catch block
(lines 193-203) resolves with defaults without reaching audioContext.close(),
so the context is created but never closed. -/
theorem c9_resource_counterexample :
    (parseAudioResources ⟨.metaLoaded 240, .readOk, .decodeError⟩).contextCreated = true
      ∧ (parseAudioResources ⟨.metaLoaded 240, .readOk, .decodeError⟩).contextClosed
          = false :=
  ⟨rfl, rfl⟩

/-- C9 (amended): the object URL is revoked on every exit path, but the audio
decode context is closed only on the fine-decode success path; on a
fine-decode failure or a reader failure it is left open. -/
theorem c9_resource_amended (env : MediaEnv) :
    (parseAudioResources env).urlRevoked = true
      ∧ ((parseAudioResources env).contextClosed = true ↔
          (∃ d, env.coarse = .metaLoaded d) ∧ env.read = .readOk
            ∧ ∃ sr ch, env.decode = .decoded sr ch) := by
  rcases env with ⟨c, r, dec⟩
  cases c <;> cases r <;> cases dec <;> simp [parseAudioResources]

/-- C9 (amended, witness): on the fully successful path the URL is revoked
and the context is closed. -/
theorem c9_resource_amended_witness :
    (parseAudioResources ⟨.metaLoaded 240, .readOk, .decoded 44100 2⟩).urlRevoked = true
      ∧ (parseAudioResources ⟨.metaLoaded 240, .readOk, .decoded 44100 2⟩).contextClosed
          = true := by
  have h := c9_resource_amended ⟨.metaLoaded 240, .readOk, .decoded 44100 2⟩
  exact ⟨h.1, h.2.mpr ⟨⟨240, rfl⟩, rfl, 44100, 2, rfl⟩⟩

/-- C10: at the zero boundary the two ratio renderings disagree — a post-run
saved percentage of exactly 0 takes the saved branch (the test is saved ≥ 0,
line 539), while a pre-flight ratio of exactly 0 takes the increase branch
showing +0% (the saved form requires ratio > 0, line 500). -/
theorem c10_zero_boundary :
    resultSavedDisplay 0 = .savedLabel 0
      ∧ estimateRatioDisplay 0 = .increasedLabel 0 := by
  constructor <;> simp [resultSavedDisplay, estimateRatioDisplay]
